import Mathlib

/-!
Shallow embedding of `src/app/canvas/SelectionHelper.ts` (the `SelectionHelper`
class and the `TimelineComponent` class) from the ShapeShifter repository.

The path-geometry engine, the store and the hover service are external
collaborators.  Their state visible to this file (the active path layer's
`pathData`) is modelled as a free term algebra over the two mutation
operations this file invokes (`splitCommand` / `unsplitCommand`), and their
query functions (`performHitTest`, `getCommand`, `getSubPath`, `project`,
`MathUtil.distance`, the flattened layer transform) are parameters collected
in an `Env` record.  Calls to `store.dispatch`, `hoverService.setHover` and
`component.draw()` are recorded as append-only logs in the component state,
so every observable effect of a handler is part of the resulting `World`.

A TypeScript runtime error (destructuring / dereferencing `undefined`) is
modelled by returning `Except.error` with a tag naming the failed access.
-/

namespace ShapeShifter

/-- A 2D mouse point.  Only passed through to the external geometry API. -/
structure Point where
  x : Int
  y : Int
deriving DecidableEq

/-- One mutation applied through the external `PathMutator`
(`splitCommand(subIdx, cmdIdx, t)` or `unsplitCommand(subIdx, cmdIdx)`). -/
inductive MutOp where
  | splitCommand (subIdx cmdIdx : Nat) (t : Int)
  | unsplitCommand (subIdx cmdIdx : Nat)
deriving DecidableEq

/-- The external `PathData` values reachable from this file: some starting
path plus a sequence of mutations applied to it (free term algebra, since the
geometry engine itself is out of scope). -/
inductive PathData where
  | base (id : Nat)
  | applyOp (p : PathData) (op : MutOp)
deriving DecidableEq

/-- The external `PathMutator`: a starting path plus the ordered list of
mutation calls made so far.  `splitCommand`/`unsplitCommand` mutate the
mutator in place and return it, `build()` produces the resulting path. -/
structure PathMutator where
  startingPath : PathData
  ops : List MutOp
deriving DecidableEq

/-- `pathData.mutate()`. -/
def PathData.mutate (p : PathData) : PathMutator := ⟨p, []⟩

/-- `pathMutator.splitCommand(subIdx, cmdIdx, t)`. -/
def PathMutator.splitCommand (m : PathMutator) (subIdx cmdIdx : Nat) (t : Int) : PathMutator :=
  { m with ops := m.ops ++ [MutOp.splitCommand subIdx cmdIdx t] }

/-- `pathMutator.unsplitCommand(subIdx, cmdIdx)`. -/
def PathMutator.unsplitCommand (m : PathMutator) (subIdx cmdIdx : Nat) : PathMutator :=
  { m with ops := m.ops ++ [MutOp.unsplitCommand subIdx cmdIdx] }

/-- `pathMutator.build()`. -/
def PathMutator.build (m : PathMutator) : PathData :=
  m.ops.foldl PathData.applyOp m.startingPath

/-- The external `Projection` record.  Only its `t` value is read, and it is
passed through unchanged to `splitCommand`, so it is kept opaque. -/
structure Projection where
  t : Int
deriving DecidableEq

/-- The `{ subIdx, cmdIdx, projection }` record built by
`calculateProjectionOntoPath` (and returned by `path.project`). -/
structure ProjectionOntoPath where
  subIdx : Nat
  cmdIdx : Nat
  projection : Projection
deriving DecidableEq

/-- A `{ subIdx, cmdIdx }` index pair. -/
structure Idx where
  subIdx : Nat
  cmdIdx : Nat
deriving DecidableEq

/-- The slice of the external `Command` objects read by this file
(`cmd.isSplitPoint()` / `cmd.isSplitSegment()`). -/
structure PathCommand where
  isSplitPoint : Bool
  isSplitSegment : Bool
deriving DecidableEq

/-- The slice of the external `SubPath` objects read by this file
(`subPath.isSplit()`). -/
structure SubPath where
  isSplit : Bool
deriving DecidableEq

/-- The hit-test result returned by `component.performHitTest`.  The shape
hits carry only a `subIdx`, so they are modelled as bare indices. -/
structure HitResult where
  isHit : Bool
  isEndPointHit : Bool
  isSegmentHit : Bool
  isShapeHit : Bool
  endPointHits : List Idx
  segmentHits : List Idx
  shapeHits : List Nat
deriving DecidableEq

/-- The external `ActionSource` enum (constructor names are opaque here). -/
inductive ActionSource where
  | fromSource
  | toSource
  | animatedSource
deriving DecidableEq

/-- The external `HoverType` enum (the three variants used in this file). -/
inductive HoverType where
  | point
  | segment
  | subPath
deriving DecidableEq

/-- A hover record handed to `hoverService.setHover`.  The `SubPath` hovers
omit `cmdIdx` in the source, modelled as `none`. -/
structure Hover where
  type : HoverType
  source : ActionSource
  subIdx : Nat
  cmdIdx : Option Nat
deriving DecidableEq

/-- The external selection record type.  This file only ever constructs the
empty selection list `[]`, so the type is opaque. -/
inductive Selection where
  | mk
deriving DecidableEq

/-- The store actions dispatched by this file. -/
inductive Action where
  | togglePointSelection (source : ActionSource) (subIdx cmdIdx : Nat) (appendToList : Bool)
  | toggleSegmentSelections (source : ActionSource) (segments : List Idx)
  | toggleSubPathSelection (source : ActionSource) (subIdx : Nat)
  | setSelections (selections : List Selection)
  | updateActivePathBlock (source : ActionSource) (pathData : PathData)
deriving DecidableEq

/-- The five private mutable fields of `SelectionHelper`.  The TypeScript
fields typed `Point` are assigned `undefined` by `reset`, hence `Option`. -/
structure HelperState where
  currentDraggableSplitIndex : Option Idx
  projectionOntoPath : Option ProjectionOntoPath
  isDragTriggered_ : Bool
  lastKnownMouseLocation : Option Point
  initialMouseDown : Option Point
deriving DecidableEq

/-- The component-side state touched by the helper: the active path layer's
`pathData` (read and, in one branch, written) plus append-only logs of the
`store.dispatch`, `hoverService.setHover` and `component.draw()` calls. -/
structure ComponentState where
  pathData : PathData
  hovers : List (Option Hover)
  dispatched : List Action
  draws : Nat
deriving DecidableEq

/-- Helper state plus component state. -/
structure World where
  helper : HelperState
  comp : ComponentState
deriving DecidableEq

/-- A TypeScript runtime failure: dereferencing or destructuring
`undefined`.  The tag names which access failed. -/
inductive JsError where
  | undefinedIndexDeref
  | undefinedHitInfo
  | undefinedProjection
deriving DecidableEq

/-- The external collaborators, as query functions.  `hitTest`, `getCommand`,
`getSubPath` and `project` take the current `pathData` as an explicit
argument, since those component queries are answered against the active path.
`transformPoint` is the composed `MathUtil.transformPoint (transform.invert())`
step of `calculateProjectionOntoPath`; `distance` is `MathUtil.distance`,
whose first argument may be the (possibly undefined) `initialMouseDown`. -/
structure Env where
  actionSource : ActionSource
  dragTriggerTouchSlop : Int
  isFilled : Bool
  isStroked : Bool
  distance : Option Point → Point → Int
  transformPoint : Point → Point
  hitTest : PathData → Point → HitResult
  getCommand : PathData → Nat → Nat → PathCommand
  getSubPath : PathData → Nat → SubPath
  project : PathData → Point → Option Nat → Option ProjectionOntoPath

/-- `store.dispatch(a)`: recorded in the dispatch log. -/
def dispatch (a : Action) (w : World) : World :=
  { w with comp := { w.comp with dispatched := w.comp.dispatched ++ [a] } }

/-- `hoverService.setHover(h)`: recorded in the hover log. -/
def setHover (h : Option Hover) (w : World) : World :=
  { w with comp := { w.comp with hovers := w.comp.hovers ++ [h] } }

/-- `component.draw()`: recorded as a counter. -/
def draw (w : World) : World :=
  { w with comp := { w.comp with draws := w.comp.draws + 1 } }

/-- `SelectionHelper.reset()` (source lines 175-181): clears all five
private fields. -/
def reset (w : World) : World :=
  { w with helper := { w.helper with
      initialMouseDown := none
      projectionOntoPath := none
      currentDraggableSplitIndex := none
      isDragTriggered_ := false
      lastKnownMouseLocation := none } }

/-- The helper state right after construction: `isDragTriggered_ = false`,
every other field `undefined`. -/
def initialHelper : HelperState := ⟨none, none, false, none, none⟩

/-- Index of the last element satisfying `p`, or `none`
(lodash `_.findLastIndex`, with `-1` rendered as `none`). -/
def findLastIndexO {α : Type} (p : α → Bool) : List α → Option Nat
  | [] => none
  | a :: as =>
    match findLastIndexO p as with
    | some i => some (i + 1)
    | none => if p a then some 0 else none

/-- The shared selection step of `findHitSubPath` / `findHitSegment` /
`findHitPoint` (source lines 252-277):
`infos[lastSplitIndex < 0 ? infos.length - 1 : lastSplitIndex]`.
Indexing an empty array yields JavaScript `undefined`, i.e. `none`. -/
def findLastOrLast {α : Type} (p : α → Bool) (infos : List α) : Option α :=
  match findLastIndexO p infos with
  | some i => infos[i]?
  | none => infos[infos.length - 1]?

/-- The `{ subIdx, cmdIdx, cmd }` info built by both `findHitPoint` and
`findHitSegment`. -/
structure HitCommandInfo where
  subIdx : Nat
  cmdIdx : Nat
  cmd : PathCommand
deriving DecidableEq

/-- The `{ subIdx, subPath }` info built by `findHitSubPath`. -/
structure HitSubPathInfo where
  subIdx : Nat
  subPath : SubPath
deriving DecidableEq

/-- `index => ({ subIdx, cmdIdx, cmd: activePath.getCommand(subIdx, cmdIdx) })`. -/
def resolveCommandHit (env : Env) (pathData : PathData) (hit : Idx) : HitCommandInfo :=
  ⟨hit.subIdx, hit.cmdIdx, env.getCommand pathData hit.subIdx hit.cmdIdx⟩

/-- `index => ({ subIdx, subPath: activePath.getSubPath(subIdx) })`. -/
def resolveSubPathHit (env : Env) (pathData : PathData) (subIdx : Nat) : HitSubPathInfo :=
  ⟨subIdx, env.getSubPath pathData subIdx⟩

/-- `SelectionHelper.findHitPoint` (source lines 270-277). -/
def findHitPoint (env : Env) (pathData : PathData) (hits : List Idx) : Option HitCommandInfo :=
  findLastOrLast (fun info => info.cmd.isSplitPoint) (hits.map (resolveCommandHit env pathData))

/-- `SelectionHelper.findHitSegment` (source lines 261-268). -/
def findHitSegment (env : Env) (pathData : PathData) (hits : List Idx) : Option HitCommandInfo :=
  findLastOrLast (fun info => info.cmd.isSplitSegment) (hits.map (resolveCommandHit env pathData))

/-- `SelectionHelper.findHitSubPath` (source lines 252-259). -/
def findHitSubPath (env : Env) (pathData : PathData) (hits : List Nat) : Option HitSubPathInfo :=
  findLastOrLast (fun info => info.subPath.isSplit) (hits.map (resolveSubPathHit env pathData))

/-- `SelectionHelper.calculateProjectionOntoPath` (source lines 284-301). -/
def calculateProjectionOntoPath (env : Env) (pathData : PathData) (mousePoint : Point)
    (restrictToSubIdx : Option Nat) : Option ProjectionOntoPath :=
  let transformedMousePoint := env.transformPoint mousePoint
  match env.project pathData transformedMousePoint restrictToSubIdx with
  | none => none
  | some projInfo => some ⟨projInfo.subIdx, projInfo.cmdIdx, projInfo.projection⟩

/-- `SelectionHelper.checkForHovers` (source lines 199-250). -/
def checkForHovers (env : Env) (mousePoint : Point) (w : World) : Except JsError World :=
  if w.helper.currentDraggableSplitIndex.isSome then
    -- Don't broadcast new hover events if a point has been selected.
    .ok w
  else
    let hitResult := env.hitTest w.comp.pathData mousePoint
    if !hitResult.isHit then
      .ok (setHover none w)
    else if hitResult.isEndPointHit then
      match findHitPoint env w.comp.pathData hitResult.endPointHits with
      | none => .error .undefinedHitInfo
      | some info =>
        .ok (setHover (some ⟨HoverType.point, env.actionSource, info.subIdx, some info.cmdIdx⟩) w)
    else
      -- Falling through the segment branch reaches the shape-hit check
      -- (source lines 241-249).
      let shapeHitStep : Except JsError World :=
        if hitResult.isShapeHit && env.isFilled then
          match findHitSubPath env w.comp.pathData hitResult.shapeHits with
          | none => .error .undefinedHitInfo
          | some info =>
            .ok (setHover (some ⟨HoverType.subPath, env.actionSource, info.subIdx, none⟩) w)
        else
          .ok w
      if hitResult.isSegmentHit then
        if env.isFilled then
          match findHitSegment env w.comp.pathData hitResult.segmentHits with
          | none => .error .undefinedHitInfo
          | some info =>
            if (env.getCommand w.comp.pathData info.subIdx info.cmdIdx).isSplitSegment then
              .ok (setHover (some ⟨HoverType.segment, env.actionSource, info.subIdx, some info.cmdIdx⟩) w)
            else
              shapeHitStep
        else if env.isStroked then
          match findHitSegment env w.comp.pathData hitResult.segmentHits with
          | none => .error .undefinedHitInfo
          | some info =>
            .ok (setHover (some ⟨HoverType.subPath, env.actionSource, info.subIdx, none⟩) w)
        else
          shapeHitStep
      else
        shapeHitStep

/-- `SelectionHelper.onMouseDown` (source lines 39-77). -/
def onMouseDown (env : Env) (mouseDown : Point) (isShiftOrMetaPressed : Bool) (w : World) :
    Except JsError World :=
  let w := { w with helper := { w.helper with
      initialMouseDown := some mouseDown
      lastKnownMouseLocation := some mouseDown } }
  let hitResult := env.hitTest w.comp.pathData mouseDown
  if hitResult.isEndPointHit then
    match findHitPoint env w.comp.pathData hitResult.endPointHits with
    | none => .error .undefinedHitInfo
    | some info =>
      if info.cmd.isSplitPoint then
        .ok { w with helper :=
          { w.helper with currentDraggableSplitIndex := some ⟨info.subIdx, info.cmdIdx⟩ } }
      else
        .ok (dispatch
          (Action.togglePointSelection env.actionSource info.subIdx info.cmdIdx isShiftOrMetaPressed) w)
  else
    -- The two remaining blocks of the source (lines 59-65 and 67-76); a
    -- non-split segment hit in the first block falls through to the second.
    let selectSubPathStep : Except JsError World :=
      if hitResult.isSegmentHit || hitResult.isShapeHit then
        let hits := if hitResult.isShapeHit then hitResult.shapeHits
                    else hitResult.segmentHits.map Idx.subIdx
        match findHitSubPath env w.comp.pathData hits with
        | none => .error .undefinedHitInfo
        | some info => .ok (dispatch (Action.toggleSubPathSelection env.actionSource info.subIdx) w)
      else if !isShiftOrMetaPressed then
        .ok (dispatch (Action.setSelections []) w)
      else
        .ok w
    if env.isFilled && hitResult.isSegmentHit then
      match findHitSegment env w.comp.pathData hitResult.segmentHits with
      | none => .error .undefinedHitInfo
      | some info =>
        if info.cmd.isSplitSegment then
          .ok (dispatch (Action.toggleSegmentSelections env.actionSource [⟨info.subIdx, info.cmdIdx⟩]) w)
        else
          selectSubPathStep
    else
      selectSubPathStep

/-- `SelectionHelper.onMouseMove` (source lines 79-95). -/
def onMouseMove (env : Env) (mouseMove : Point) (w : World) : Except JsError World :=
  let w := { w with helper := { w.helper with lastKnownMouseLocation := some mouseMove } }
  let w :=
    if w.helper.currentDraggableSplitIndex.isSome then
      if env.dragTriggerTouchSlop < env.distance w.helper.initialMouseDown mouseMove then
        { w with helper := { w.helper with isDragTriggered_ := true } }
      else w
    else w
  if w.helper.isDragTriggered_ then
    match w.helper.currentDraggableSplitIndex with
    | none => .error .undefinedIndexDeref
    | some dragIdx =>
      let proj := calculateProjectionOntoPath env w.comp.pathData mouseMove (some dragIdx.subIdx)
      .ok (draw { w with helper := { w.helper with projectionOntoPath := proj } })
  else
    match checkForHovers env mouseMove w with
    | .error e => .error e
    | .ok w => .ok (draw w)

/-- Source lines 134-142: clear hover and selections, reset, then dispatch
the `UpdateActivePathBlock` carrying `pathMutator.build()`. -/
def commitDragChanges (env : Env) (pathMutator : PathMutator) (w : World) : World :=
  let w := setHover none w
  let w := dispatch (Action.setSelections []) w
  let w := reset w
  dispatch (Action.updateActivePathBlock env.actionSource pathMutator.build) w

/-- The body of `SelectionHelper.onMouseUp` before its common epilogue
(source lines 97-157). -/
def onMouseUpCore (env : Env) (mouseUp : Point) (isShiftOrMetaPressed : Bool) (w : World) :
    Except JsError World :=
  let w := { w with helper := { w.helper with lastKnownMouseLocation := some mouseUp } }
  if w.helper.isDragTriggered_ then
    match w.helper.projectionOntoPath with
    | none => .error .undefinedProjection
    | some projOntoPath =>
      match w.helper.currentDraggableSplitIndex with
      | none => .error .undefinedIndexDeref
      | some dragIdx =>
        let newSubIdx := projOntoPath.subIdx
        let newCmdIdx := projOntoPath.cmdIdx
        let oldSubIdx := dragIdx.subIdx
        let oldCmdIdx := dragIdx.cmdIdx
        if newSubIdx = oldSubIdx then
          let startingPath := w.comp.pathData
          if newCmdIdx > oldCmdIdx then
            -- The order is important here, as it preserves the command indices.
            let pathMutator :=
              (startingPath.mutate.splitCommand newSubIdx newCmdIdx
                projOntoPath.projection.t).unsplitCommand oldSubIdx oldCmdIdx
            .ok (commitDragChanges env pathMutator w)
          else if newCmdIdx < oldCmdIdx then
            let pathMutator :=
              (startingPath.mutate.unsplitCommand oldSubIdx
                oldCmdIdx).splitCommand newSubIdx newCmdIdx projOntoPath.projection.t
            .ok (commitDragChanges env pathMutator w)
          else
            -- Unsplitting changes the projection t value, so the unsplit path
            -- is written back to the layer and the projection recalculated.
            let pathMutator := startingPath.mutate.unsplitCommand oldSubIdx oldCmdIdx
            let w := { w with comp := { w.comp with pathData := pathMutator.build } }
            match calculateProjectionOntoPath env w.comp.pathData mouseUp none with
            | none => .error .undefinedProjection
            | some tempProjOntoPath =>
              if oldSubIdx = tempProjOntoPath.subIdx then
                let pathMutator := pathMutator.splitCommand tempProjOntoPath.subIdx
                  tempProjOntoPath.cmdIdx tempProjOntoPath.projection.t
                .ok (commitDragChanges env pathMutator w)
              else
                -- The projection subIdx changed after the unsplit: give up.
                let pathMutator := startingPath.mutate
                .ok (commitDragChanges env pathMutator w)
        else
          .ok w
  else if w.helper.currentDraggableSplitIndex.isSome then
    let hitResult := env.hitTest w.comp.pathData mouseUp
    if !hitResult.isHit then
      .ok (dispatch (Action.setSelections []) w)
    else if hitResult.isEndPointHit then
      match findHitPoint env w.comp.pathData hitResult.endPointHits with
      | none => .error .undefinedHitInfo
      | some info =>
        .ok (dispatch
          (Action.togglePointSelection env.actionSource info.subIdx info.cmdIdx isShiftOrMetaPressed) w)
    else if hitResult.isSegmentHit || hitResult.isShapeHit then
      let hits := if hitResult.isShapeHit then hitResult.shapeHits
                  else hitResult.segmentHits.map Idx.subIdx
      match findHitSubPath env w.comp.pathData hits with
      | none => .error .undefinedHitInfo
      | some info => .ok (dispatch (Action.toggleSubPathSelection env.actionSource info.subIdx) w)
    else
      .ok w
  else
    .ok w

/-- `SelectionHelper.onMouseUp` (source lines 97-162): the main body followed
by the common epilogue `reset(); checkForHovers(mouseUp); draw()`. -/
def onMouseUp (env : Env) (mouseUp : Point) (isShiftOrMetaPressed : Bool) (w : World) :
    Except JsError World :=
  match onMouseUpCore env mouseUp isShiftOrMetaPressed w with
  | .error e => .error e
  | .ok w =>
    let w := reset w
    match checkForHovers env mouseUp w with
    | .error e => .error e
    | .ok w => .ok (draw w)

/-- `SelectionHelper.onMouseLeave` (source lines 164-169). -/
def onMouseLeave (mouseLeave : Point) (w : World) : World :=
  let w := { w with helper := { w.helper with lastKnownMouseLocation := some mouseLeave } }
  let w := reset w
  let w := setHover none w
  draw w

/-- `SelectionHelper.isDragTriggered()`. -/
def isDragTriggered (w : World) : Bool := w.helper.isDragTriggered_

/-- `SelectionHelper.getDraggableSplitIndex()`. -/
def getDraggableSplitIndex (w : World) : Option Idx := w.helper.currentDraggableSplitIndex

/-- `SelectionHelper.getProjectionOntoPath()`. -/
def getProjectionOntoPath (w : World) : Option ProjectionOntoPath := w.helper.projectionOntoPath

/-- `SelectionHelper.getLastKnownMouseLocation()`. -/
def getLastKnownMouseLocation (w : World) : Option Point := w.helper.lastKnownMouseLocation

/-! ## TimelineComponent -/

/-- `TimelineComponent.maxAnimationFractionSliderValue = 1000`. -/
def maxAnimationFractionSliderValue : ℚ := 1000

/-- `TimelineComponent.animationDuration = 1000` (milliseconds). -/
def animationDuration : Int := 1000

/-- `TimelineComponent.onAnimationFractionSliderChanged`: the value emitted on
`animationFractionChangedEmitter`. -/
def onAnimationFractionSliderChanged (sliderValue : ℚ) : ℚ :=
  sliderValue / maxAnimationFractionSliderValue

/-- `TimelineComponent.onLabelPointsCheckboxChanged`: the value emitted on
`labelPointsChangedEmitter`. -/
def onLabelPointsCheckboxChanged (shouldLabelPoints : Bool) : Bool :=
  shouldLabelPoints

/-- One invocation of the `onAnimationFrame` callback inside `onPlayClick`
(source lines 330-342).  `if (!startTimestamp)` is a JavaScript falsiness
check, so it re-assigns `startTimestamp` both when it is `null` and when it
is `0`.  Returns the new `startTimestamp`, the emitted fraction, and whether
another animation frame was requested. -/
def onAnimationFrameStep (startTimestamp : Option Int) (timestamp : Int) :
    Option Int × ℚ × Bool :=
  let st := match startTimestamp with
    | none => timestamp
    | some s => if s = 0 then timestamp else s
  let progress := timestamp - st
  if progress < animationDuration then
    (some st, (progress : ℚ) / (animationDuration : ℚ), true)
  else
    (none, 1, false)

/-- The play loop started by `onPlayClick`, run over the sequence of
timestamps the platform delivers to the scheduled frames.  Returns the list
of emitted fractions and whether a further frame is still scheduled after
the listed timestamps are consumed. -/
def runPlayLoop (startTimestamp : Option Int) : List Int → List ℚ × Bool
  | [] => ([], true)
  | t :: ts =>
    let step := onAnimationFrameStep startTimestamp t
    if step.2.2 then
      let rest := runPlayLoop step.1 ts
      (step.2.1 :: rest.1, rest.2)
    else
      ([step.2.1], false)

/-! ## Lemmas about the hit disambiguation step -/

lemma findLastIndexO_eq_none {α : Type} (p : α → Bool) (l : List α)
    (h : findLastIndexO p l = none) : l.find? p = none := by
  induction l with
  | nil => rfl
  | cons a as ih =>
    unfold findLastIndexO at h
    cases hfl : findLastIndexO p as with
    | some i => rw [hfl] at h; exact absurd h (by simp)
    | none =>
      rw [hfl] at h
      cases hpa : p a with
      | true => rw [hpa] at h; simp at h
      | false => simp [List.find?_cons, hpa, ih hfl]

lemma findLastIndexO_lt_length {α : Type} (p : α → Bool) (l : List α) (i : Nat)
    (h : findLastIndexO p l = some i) : i < l.length := by
  induction l generalizing i with
  | nil => simp [findLastIndexO] at h
  | cons a as ih =>
    unfold findLastIndexO at h
    cases hfl : findLastIndexO p as with
    | some j =>
      rw [hfl] at h
      simp only [Option.some.injEq] at h
      subst h
      exact Nat.succ_lt_succ (ih j hfl)
    | none =>
      rw [hfl] at h
      cases hpa : p a with
      | true => rw [hpa] at h; simp at h; simp [← h]
      | false => rw [hpa] at h; simp at h

lemma findLastIndexO_eq_some {α : Type} (p : α → Bool) (l : List α) (i : Nat)
    (h : findLastIndexO p l = some i) : l.reverse.find? p = l[i]? := by
  induction l generalizing i with
  | nil => simp [findLastIndexO] at h
  | cons a as ih =>
    unfold findLastIndexO at h
    cases hfl : findLastIndexO p as with
    | some j =>
      rw [hfl] at h
      simp only [Option.some.injEq] at h
      subst h
      have hj := findLastIndexO_lt_length p as j hfl
      rw [List.reverse_cons, List.find?_append, ih j hfl,
        List.getElem?_eq_getElem hj]
      simp
    | none =>
      rw [hfl] at h
      cases hpa : p a with
      | true =>
        rw [hpa] at h
        simp at h
        subst h
        have hnone : as.reverse.find? p = none := by
          rw [List.find?_eq_none]
          intro x hx
          have := findLastIndexO_eq_none p as hfl
          rw [List.find?_eq_none] at this
          exact this x (List.mem_reverse.mp hx)
        rw [List.reverse_cons, List.find?_append, hnone]
        simp [List.find?_cons, hpa]
      | false => rw [hpa] at h; simp at h

lemma getElem?_length_sub_one {α : Type} :
    ∀ (l : List α) (h : l ≠ []), l[l.length - 1]? = some (l.getLast h)
  | [_], _ => rfl
  | a :: b :: bs, _ => by
    have ih := getElem?_length_sub_one (b :: bs) (by simp)
    have hl : (a :: b :: bs).length - 1 = (b :: bs).length - 1 + 1 := by
      simp [List.length_cons]
    rw [hl, List.getElem?_cons_succ, ih, List.getLast_cons (by simp : (b :: bs) ≠ [])]

lemma findLastOrLast_spec {α : Type} (p : α → Bool) (l : List α) (h : l ≠ []) :
    findLastOrLast p l = some ((l.reverse.find? p).getD (l.getLast h)) := by
  unfold findLastOrLast
  cases hfl : findLastIndexO p l with
  | some i =>
    have hi := findLastIndexO_lt_length p l i hfl
    rw [findLastIndexO_eq_some p l i hfl, List.getElem?_eq_getElem hi]
    simp
  | none =>
    have hrev : l.reverse.find? p = none := by
      rw [List.find?_eq_none]
      intro x hx
      have := findLastIndexO_eq_none p l hfl
      rw [List.find?_eq_none] at this
      exact this x (List.mem_reverse.mp hx)
    rw [hrev, getElem?_length_sub_one l h]
    rfl

lemma getD_map_comm {α β : Type} (f : α → β) (o : Option α) (d : α) :
    (o.map f).getD (f d) = f (o.getD d) := by
  cases o <;> rfl

lemma findHitPoint_eq_last_split (env : Env) (pathData : PathData) (hits : List Idx)
    (h : hits ≠ []) :
    findHitPoint env pathData hits = some (resolveCommandHit env pathData
      ((hits.reverse.find? fun i => (env.getCommand pathData i.subIdx i.cmdIdx).isSplitPoint).getD
        (hits.getLast h))) := by
  unfold findHitPoint
  rw [findLastOrLast_spec _ _ (by simpa using h), ← List.map_reverse, List.find?_map,
    List.getLast_map, getD_map_comm]
  rfl

lemma findHitSegment_eq_last_split (env : Env) (pathData : PathData) (hits : List Idx)
    (h : hits ≠ []) :
    findHitSegment env pathData hits = some (resolveCommandHit env pathData
      ((hits.reverse.find? fun i => (env.getCommand pathData i.subIdx i.cmdIdx).isSplitSegment).getD
        (hits.getLast h))) := by
  unfold findHitSegment
  rw [findLastOrLast_spec _ _ (by simpa using h), ← List.map_reverse, List.find?_map,
    List.getLast_map, getD_map_comm]
  rfl

lemma findHitSubPath_eq_last_split (env : Env) (pathData : PathData) (hits : List Nat)
    (h : hits ≠ []) :
    findHitSubPath env pathData hits = some (resolveSubPathHit env pathData
      ((hits.reverse.find? fun s => (env.getSubPath pathData s).isSplit).getD
        (hits.getLast h))) := by
  unfold findHitSubPath
  rw [findLastOrLast_spec _ _ (by simpa using h), ← List.map_reverse, List.find?_map,
    List.getLast_map, getD_map_comm]
  rfl

/-! ## Structural lemmas about the handlers -/

lemma checkForHovers_ok_parts (env : Env) (mousePoint : Point) (w w' : World)
    (h : checkForHovers env mousePoint w = .ok w') :
    w'.helper = w.helper ∧ w'.comp.pathData = w.comp.pathData ∧
      w'.comp.dispatched = w.comp.dispatched ∧ w'.comp.draws = w.comp.draws := by
  unfold checkForHovers at h
  dsimp only at h
  repeat' split at h
  all_goals first
    | (cases Except.ok.inj h; exact ⟨rfl, rfl, rfl, rfl⟩)
    | simp at h

@[simp] lemma draw_helper (w : World) : (draw w).helper = w.helper := rfl

@[simp] lemma draw_pathData (w : World) : (draw w).comp.pathData = w.comp.pathData := rfl

@[simp] lemma draw_hovers (w : World) : (draw w).comp.hovers = w.comp.hovers := rfl

@[simp] lemma draw_dispatched (w : World) : (draw w).comp.dispatched = w.comp.dispatched := rfl

@[simp] lemma dispatch_helper (a : Action) (w : World) : (dispatch a w).helper = w.helper := rfl

@[simp] lemma dispatch_pathData (a : Action) (w : World) :
    (dispatch a w).comp.pathData = w.comp.pathData := rfl

@[simp] lemma dispatch_hovers (a : Action) (w : World) :
    (dispatch a w).comp.hovers = w.comp.hovers := rfl

@[simp] lemma dispatch_dispatched (a : Action) (w : World) :
    (dispatch a w).comp.dispatched = w.comp.dispatched ++ [a] := rfl

@[simp] lemma setHover_helper (h : Option Hover) (w : World) : (setHover h w).helper = w.helper := rfl

@[simp] lemma setHover_pathData (h : Option Hover) (w : World) :
    (setHover h w).comp.pathData = w.comp.pathData := rfl

@[simp] lemma setHover_hovers (h : Option Hover) (w : World) :
    (setHover h w).comp.hovers = w.comp.hovers ++ [h] := rfl

@[simp] lemma setHover_dispatched (h : Option Hover) (w : World) :
    (setHover h w).comp.dispatched = w.comp.dispatched := rfl

@[simp] lemma reset_helper (w : World) : (reset w).helper = initialHelper := rfl

@[simp] lemma reset_comp (w : World) : (reset w).comp = w.comp := rfl

@[simp] lemma commitDragChanges_helper (env : Env) (m : PathMutator) (w : World) :
    (commitDragChanges env m w).helper = initialHelper := rfl

@[simp] lemma commitDragChanges_pathData (env : Env) (m : PathMutator) (w : World) :
    (commitDragChanges env m w).comp.pathData = w.comp.pathData := rfl

@[simp] lemma commitDragChanges_hovers (env : Env) (m : PathMutator) (w : World) :
    (commitDragChanges env m w).comp.hovers = w.comp.hovers ++ [none] := rfl

@[simp] lemma commitDragChanges_dispatched (env : Env) (m : PathMutator) (w : World) :
    (commitDragChanges env m w).comp.dispatched =
      w.comp.dispatched ++ [Action.setSelections [], Action.updateActivePathBlock env.actionSource m.build] := by
  simp [commitDragChanges]

lemma onMouseUp_ok_parts (env : Env) (p : Point) (s : Bool) (w w' : World)
    (h : onMouseUp env p s w = .ok w') :
    ∃ u, onMouseUpCore env p s w = .ok u ∧ w'.helper = initialHelper ∧
      w'.comp.pathData = u.comp.pathData ∧ w'.comp.dispatched = u.comp.dispatched := by
  unfold onMouseUp at h
  cases hc : onMouseUpCore env p s w with
  | error e => rw [hc] at h; simp at h
  | ok u =>
    rw [hc] at h
    dsimp only at h
    cases hch : checkForHovers env p (reset u) with
    | error e => rw [hch] at h; simp at h
    | ok v =>
      rw [hch] at h
      cases Except.ok.inj h
      obtain ⟨hh, hp, hd, _⟩ := checkForHovers_ok_parts env p (reset u) v hch
      exact ⟨u, rfl, by simpa using hh, by simpa using hp, by simpa using hd⟩

@[simp] lemma onMouseLeave_helper (p : Point) (w : World) :
    (onMouseLeave p w).helper = initialHelper := rfl

@[simp] lemma onMouseLeave_pathData (p : Point) (w : World) :
    (onMouseLeave p w).comp.pathData = w.comp.pathData := rfl

@[simp] lemma onMouseLeave_hovers (p : Point) (w : World) :
    (onMouseLeave p w).comp.hovers = w.comp.hovers ++ [none] := rfl

@[simp] lemma onMouseLeave_dispatched (p : Point) (w : World) :
    (onMouseLeave p w).comp.dispatched = w.comp.dispatched := rfl

lemma checkForHovers_helper_eq (env : Env) (mousePoint : Point) (w w' : World)
    (h : checkForHovers env mousePoint w = .ok w') : w'.helper = w.helper :=
  (checkForHovers_ok_parts env mousePoint w w' h).1

/-- The invariant linking the drag flag to the drag target. -/
def DragInv (h : HelperState) : Prop :=
  h.isDragTriggered_ = true → h.currentDraggableSplitIndex ≠ none

lemma dragInv_initial : DragInv initialHelper := by
  intro h
  simp [initialHelper] at h

lemma onMouseDown_preserves_dragInv (env : Env) (p : Point) (s : Bool) (w w' : World)
    (hinv : DragInv w.helper) (h : onMouseDown env p s w = .ok w') : DragInv w'.helper := by
  unfold onMouseDown at h
  dsimp only at h
  repeat' split at h
  all_goals first
    | (cases Except.ok.inj h; exact hinv)
    | (cases Except.ok.inj h; intro hx; simp)
    | simp at h

lemma onMouseMove_preserves_dragInv (env : Env) (p : Point) (w w' : World)
    (hinv : DragInv w.helper) (h : onMouseMove env p w = .ok w') : DragInv w'.helper := by
  unfold onMouseMove at h
  dsimp only at h
  repeat' split at h
  all_goals first
    | (cases Except.ok.inj h; exact hinv)
    | (cases Except.ok.inj h; intro hx; simp_all; done)
    | (cases Except.ok.inj h; intro hx
       rename_i heq
       simp only [draw_helper] at hx
       rw [checkForHovers_helper_eq _ _ _ _ heq] at hx
       simp_all
       done)
    | simp at h

lemma checkForHovers_not_index_error (env : Env) (mousePoint : Point) (w : World) :
    checkForHovers env mousePoint w ≠ .error .undefinedIndexDeref := by
  unfold checkForHovers
  dsimp only
  repeat' split
  all_goals simp

lemma onMouseUp_preserves_dragInv (env : Env) (p : Point) (s : Bool) (w w' : World)
    (h : onMouseUp env p s w = .ok w') : DragInv w'.helper := by
  obtain ⟨u, -, hh, -, -⟩ := onMouseUp_ok_parts env p s w w' h
  rw [hh]
  exact dragInv_initial

lemma dragInv_no_index_deref (env : Env) (p : Point) (w : World) (hinv : DragInv w.helper) :
    onMouseMove env p w ≠ .error .undefinedIndexDeref := by
  intro h
  unfold onMouseMove at h
  dsimp only at h
  repeat' split at h
  all_goals first
    | (simp_all [DragInv]; done)
    | (rename_i heq
       exact absurd (Except.error.inj h) (by rintro rfl; exact checkForHovers_not_index_error _ _ _ heq))

/-- The helper states reachable from construction by any sequence of mouse
events (with arbitrary environments and inputs), allowing the external world
to replace the component state between events. -/
inductive Reachable : World → Prop where
  | init (c : ComponentState) : Reachable ⟨initialHelper, c⟩
  | externalUpdate (w : World) (c : ComponentState) : Reachable w → Reachable ⟨w.helper, c⟩
  | mouseDown (env : Env) (p : Point) (s : Bool) (w w' : World) :
      Reachable w → onMouseDown env p s w = .ok w' → Reachable w'
  | mouseMove (env : Env) (p : Point) (w w' : World) :
      Reachable w → onMouseMove env p w = .ok w' → Reachable w'
  | mouseUp (env : Env) (p : Point) (s : Bool) (w w' : World) :
      Reachable w → onMouseUp env p s w = .ok w' → Reachable w'
  | mouseLeave (p : Point) (w : World) : Reachable w → Reachable (onMouseLeave p w)

lemma reachable_dragInv (w : World) (h : Reachable w) : DragInv w.helper := by
  induction h with
  | init c => exact dragInv_initial
  | externalUpdate w c _ ih => exact ih
  | mouseDown env p s w w' _ hrun ih => exact onMouseDown_preserves_dragInv env p s w w' ih hrun
  | mouseMove env p w w' _ hrun ih => exact onMouseMove_preserves_dragInv env p w w' ih hrun
  | mouseUp env p s w w' _ hrun _ => exact onMouseUp_preserves_dragInv env p s w w' hrun
  | mouseLeave p w _ _ => simpa using dragInv_initial

/-! ## Concrete data used by the witnesses -/

/-- Origin mouse point. -/
def pt0 : Point := ⟨0, 0⟩

/-- A hit result reporting no hits at all. -/
def missHitResult : HitResult := ⟨false, false, false, false, [], [], []⟩

/-- A concrete environment whose hit test never reports a hit. -/
def envMiss : Env :=
  ⟨ActionSource.animatedSource, 1, true, false,
   fun _ _ => 10, fun p => p, fun _ _ => missHitResult,
   fun _ _ _ => ⟨false, false⟩, fun _ _ => ⟨false⟩,
   fun _ _ _ => some ⟨0, 2, ⟨5⟩⟩⟩

/-- A concrete environment whose hit test always reports an end-point hit on
a split point at `(subIdx, cmdIdx) = (0, 1)` and whose `distance` always
exceeds the touch slop. -/
def envDrag : Env :=
  ⟨ActionSource.animatedSource, 1, true, false,
   fun _ _ => 10, fun p => p,
   fun _ _ => ⟨true, true, false, false, [⟨0, 1⟩], [], []⟩,
   fun _ _ _ => ⟨true, false⟩, fun _ _ => ⟨false⟩,
   fun _ _ _ => some ⟨0, 2, ⟨5⟩⟩⟩

/-- A concrete starting component state. -/
def comp0 : ComponentState := ⟨PathData.base 7, [], [], 0⟩

/-- The freshly constructed helper over `comp0`. -/
def w0 : World := ⟨initialHelper, comp0⟩

/-- `w0` after `onMouseDown envDrag pt0 false`: the split point is remembered
as draggable. -/
def wDown : World := ⟨⟨some ⟨0, 1⟩, none, false, some pt0, some pt0⟩, comp0⟩

/-- `wDown` after `onMouseMove envDrag pt0`: the drag is triggered and a
projection is stored. -/
def wDrag : World :=
  ⟨⟨some ⟨0, 1⟩, some ⟨0, 2, ⟨5⟩⟩, true, some pt0, some pt0⟩, ⟨PathData.base 7, [], [], 1⟩⟩

/-! ## Claim C9 -/

/-- C9: in every state reachable by any sequence of
`onMouseDown`/`onMouseMove`/`onMouseUp`/`onMouseLeave` calls,
`isDragTriggered_ = true` implies `currentDraggableSplitIndex` is defined,
and consequently the dereference `this.currentDraggableSplitIndex.subIdx` in
`onMouseMove`'s drag branch never fails. -/
theorem reachable_drag_flag_implies_index (w : World) (h : Reachable w) :
    (w.helper.isDragTriggered_ = true → w.helper.currentDraggableSplitIndex ≠ none) ∧
    ∀ (env : Env) (p : Point), onMouseMove env p w ≠ .error .undefinedIndexDeref :=
  ⟨reachable_dragInv w h, fun env p => dragInv_no_index_deref env p w (reachable_dragInv w h)⟩

/-- Witness for C9 at a drag-in-progress state reached by a concrete
mouse-down followed by a mouse-move. -/
theorem reachable_drag_flag_implies_index_witness :
    (wDrag.helper.isDragTriggered_ = true → wDrag.helper.currentDraggableSplitIndex ≠ none) ∧
    onMouseMove envDrag pt0 wDrag ≠ .error .undefinedIndexDeref := by
  have hreach : Reachable wDrag :=
    Reachable.mouseMove envDrag pt0 wDown wDrag
      (Reachable.mouseDown envDrag pt0 false w0 wDown (Reachable.init comp0) rfl) rfl
  have h := reachable_drag_flag_implies_index wDrag hreach
  exact ⟨h.1, h.2 envDrag pt0⟩

/-! ## Claim C10 -/

/-- C10: after every `onMouseUp` that returns normally, and after every
`onMouseLeave`, the gesture state is fully cleared: `isDragTriggered()` is
`false` and `getDraggableSplitIndex()`, `getProjectionOntoPath()` and
`getLastKnownMouseLocation()` all return `undefined` — the unconditional
`reset()` clears `lastKnownMouseLocation` even though both handlers assign
the event's point to it on entry. -/
theorem gestureEnd_clears_state (env : Env) (p : Point) (s : Bool) (w w' : World) :
    (onMouseUp env p s w = .ok w' →
      isDragTriggered w' = false ∧ getDraggableSplitIndex w' = none ∧
        getProjectionOntoPath w' = none ∧ getLastKnownMouseLocation w' = none) ∧
    (isDragTriggered (onMouseLeave p w) = false ∧
      getDraggableSplitIndex (onMouseLeave p w) = none ∧
      getProjectionOntoPath (onMouseLeave p w) = none ∧
      getLastKnownMouseLocation (onMouseLeave p w) = none) := by
  constructor
  · intro h
    obtain ⟨u, -, hh, -, -⟩ := onMouseUp_ok_parts env p s w w' h
    unfold isDragTriggered getDraggableSplitIndex getProjectionOntoPath getLastKnownMouseLocation
    rw [hh]
    exact ⟨rfl, rfl, rfl, rfl⟩
  · exact ⟨rfl, rfl, rfl, rfl⟩

/-- The result of `onMouseUp envMiss pt0 false w0`: one hover-clearing call
and one draw. -/
def wUpRes : World := ⟨initialHelper, ⟨PathData.base 7, [none], [], 1⟩⟩

/-- Witness for C10 at a concrete mouse-up and mouse-leave. -/
theorem gestureEnd_clears_state_witness :
    (isDragTriggered wUpRes = false ∧ getDraggableSplitIndex wUpRes = none ∧
      getProjectionOntoPath wUpRes = none ∧ getLastKnownMouseLocation wUpRes = none) ∧
    (isDragTriggered (onMouseLeave pt0 w0) = false ∧
      getDraggableSplitIndex (onMouseLeave pt0 w0) = none ∧
      getProjectionOntoPath (onMouseLeave pt0 w0) = none ∧
      getLastKnownMouseLocation (onMouseLeave pt0 w0) = none) := by
  have h := gestureEnd_clears_state envMiss pt0 false w0 wUpRes
  exact ⟨h.1 rfl, h.2⟩

@[simp] lemma mutate_build (p : PathData) : p.mutate.build = p := rfl

lemma checkForHovers_some_idx (env : Env) (p : Point) (w : World)
    (h : w.helper.currentDraggableSplitIndex.isSome = true) :
    checkForHovers env p w = .ok w := by
  unfold checkForHovers
  rw [if_pos h]

/-! ## Claim C1 -/

/-- C1: when a drag ends on the same sub-path (`subIdx` equal) at a different
`cmdIdx`, the helper applies `splitCommand` and `unsplitCommand` in the
index-preserving order — split at the new index before unsplit at the old
index when `newCmdIdx > oldCmdIdx`, unsplit before split when
`newCmdIdx < oldCmdIdx` — and dispatches an `UpdateActivePathBlock` carrying
the path built from those two mutations applied to the starting path. -/
theorem onMouseUp_drag_split_order (env : Env) (p : Point) (s : Bool) (w w' : World)
    (proj : ProjectionOntoPath) (old : Idx)
    (hdrag : w.helper.isDragTriggered_ = true)
    (hproj : w.helper.projectionOntoPath = some proj)
    (hold : w.helper.currentDraggableSplitIndex = some old)
    (hsub : proj.subIdx = old.subIdx)
    (hrun : onMouseUp env p s w = .ok w') :
    (old.cmdIdx < proj.cmdIdx →
      w'.comp.dispatched = w.comp.dispatched ++
        [Action.setSelections [],
         Action.updateActivePathBlock env.actionSource
           ((w.comp.pathData.mutate.splitCommand proj.subIdx proj.cmdIdx
               proj.projection.t).unsplitCommand old.subIdx old.cmdIdx).build]) ∧
    (proj.cmdIdx < old.cmdIdx →
      w'.comp.dispatched = w.comp.dispatched ++
        [Action.setSelections [],
         Action.updateActivePathBlock env.actionSource
           ((w.comp.pathData.mutate.unsplitCommand old.subIdx
               old.cmdIdx).splitCommand proj.subIdx proj.cmdIdx proj.projection.t).build]) := by
  obtain ⟨u, hcore, hh, hp, hd⟩ := onMouseUp_ok_parts env p s w w' hrun
  unfold onMouseUpCore at hcore
  dsimp only at hcore
  simp only [hdrag, hproj, hold, hsub, if_true] at hcore
  constructor
  · intro hlt
    simp only [gt_iff_lt, hlt, if_true, if_pos] at hcore
    rw [hd, ← Except.ok.inj hcore]
    simp [hsub]
  · intro hlt
    have hnot : ¬ (old.cmdIdx < proj.cmdIdx) := Nat.lt_asymm hlt
    simp only [gt_iff_lt, hnot, if_false, hlt, if_true] at hcore
    rw [hd, ← Except.ok.inj hcore]
    simp [hsub]

/-- `wDrag` after `onMouseUp envDrag pt0 false`. -/
def wUpDrag : World := (onMouseUp envDrag pt0 false wDrag).toOption.getD w0

/-- Witness for C1: the drag from `(0, 1)` lands at `(0, 2)`, so the split
at the new index precedes the unsplit at the old index. -/
theorem onMouseUp_drag_split_order_witness :
    wDrag.helper.isDragTriggered_ = true ∧
    (⟨0, 1⟩ : Idx).cmdIdx < (⟨0, 2, ⟨5⟩⟩ : ProjectionOntoPath).cmdIdx ∧
    wUpDrag.comp.dispatched = wDrag.comp.dispatched ++
      [Action.setSelections [],
       Action.updateActivePathBlock envDrag.actionSource
         ((wDrag.comp.pathData.mutate.splitCommand 0 2 5).unsplitCommand 0 1).build] := by
  refine ⟨rfl, by decide, ?_⟩
  exact (onMouseUp_drag_split_order envDrag pt0 false wDrag wUpDrag ⟨0, 2, ⟨5⟩⟩ ⟨0, 1⟩
    rfl rfl rfl rfl rfl).1 (by decide)

/-! ## Claim C2 -/

/-- C2: a drag whose projection indices mismatch is silently given up.  If
the final projection's `subIdx` differs from the dragged point's `subIdx`,
nothing is dispatched (in particular no `UpdateActivePathBlock`) and the
path is unchanged; in the equal-`cmdIdx` case, when the re-projection
computed after the unsplit lands on a different `subIdx`, the mutator is
reset so the dispatched `UpdateActivePathBlock` carries a path equal to the
starting path. -/
theorem onMouseUp_drag_giveUp (env : Env) (p : Point) (s : Bool) (w w' : World)
    (proj : ProjectionOntoPath) (old : Idx)
    (hdrag : w.helper.isDragTriggered_ = true)
    (hproj : w.helper.projectionOntoPath = some proj)
    (hold : w.helper.currentDraggableSplitIndex = some old)
    (hrun : onMouseUp env p s w = .ok w') :
    (proj.subIdx ≠ old.subIdx →
      w'.comp.dispatched = w.comp.dispatched ∧ w'.comp.pathData = w.comp.pathData) ∧
    (∀ temp : ProjectionOntoPath, proj.subIdx = old.subIdx → proj.cmdIdx = old.cmdIdx →
      calculateProjectionOntoPath env
          ((w.comp.pathData.mutate.unsplitCommand old.subIdx old.cmdIdx).build) p none = some temp →
      old.subIdx ≠ temp.subIdx →
      w'.comp.dispatched = w.comp.dispatched ++
        [Action.setSelections [],
         Action.updateActivePathBlock env.actionSource w.comp.pathData]) := by
  obtain ⟨u, hcore, hh, hp, hd⟩ := onMouseUp_ok_parts env p s w w' hrun
  unfold onMouseUpCore at hcore
  dsimp only at hcore
  simp only [hdrag, hproj, hold, if_true] at hcore
  constructor
  · intro hne
    simp only [hne, if_false] at hcore
    rw [hd, hp, ← Except.ok.inj hcore]
    exact ⟨rfl, rfl⟩
  · intro temp hsub hcmd htemp hne
    simp only [hsub, hcmd, lt_self_iff_false, gt_iff_lt, if_false, if_true] at hcore
    rw [htemp] at hcore
    simp only [hne, if_false] at hcore
    rw [hd, ← Except.ok.inj hcore]
    simp

/-- A drag state whose stored projection sits on a different sub-path
(`subIdx = 1`) than the dragged split point (`subIdx = 0`). -/
def wDragB : World :=
  ⟨⟨some ⟨0, 1⟩, some ⟨1, 2, ⟨5⟩⟩, true, some pt0, some pt0⟩, ⟨PathData.base 7, [], [], 1⟩⟩

/-- `wDragB` after `onMouseUp envDrag pt0 false`. -/
def wUpDragB : World := (onMouseUp envDrag pt0 false wDragB).toOption.getD w0

/-- Witness for C2 at a mismatching `subIdx`: nothing is dispatched and the
path is unchanged. -/
theorem onMouseUp_drag_giveUp_witness :
    wDragB.helper.isDragTriggered_ = true ∧
    (1 : Nat) ≠ 0 ∧
    wUpDragB.comp.dispatched = wDragB.comp.dispatched ∧
    wUpDragB.comp.pathData = wDragB.comp.pathData := by
  have h := (onMouseUp_drag_giveUp envDrag pt0 false wDragB wUpDragB ⟨1, 2, ⟨5⟩⟩ ⟨0, 1⟩
    rfl rfl rfl rfl).1 (by decide)
  exact ⟨rfl, by decide, h.1, h.2⟩

/-! ## Claim C5 -/

/-- C5: when the hit test reports no end-point, segment, or shape hit,
`onMouseDown` dispatches exactly one `SetSelections([])` if the shift/meta
modifier is not pressed, and dispatches nothing if it is pressed. -/
theorem onMouseDown_miss_dispatch (env : Env) (p : Point) (s : Bool) (w w' : World)
    (hend : (env.hitTest w.comp.pathData p).isEndPointHit = false)
    (hseg : (env.hitTest w.comp.pathData p).isSegmentHit = false)
    (hshape : (env.hitTest w.comp.pathData p).isShapeHit = false)
    (hrun : onMouseDown env p s w = .ok w') :
    w'.comp.dispatched = w.comp.dispatched ++
      (if s then [] else [Action.setSelections []]) := by
  unfold onMouseDown at hrun
  dsimp only at hrun
  cases s with
  | true =>
    simp [hend, hseg, hshape] at hrun
    subst hrun
    simp
  | false =>
    simp [hend, hseg, hshape] at hrun
    subst hrun
    simp

/-- `w0` after `onMouseDown envMiss pt0 false`. -/
def wDownMiss : World := (onMouseDown envMiss pt0 false w0).toOption.getD w0

/-- Witness for C5: a miss without the modifier dispatches exactly
`SetSelections([])`. -/
theorem onMouseDown_miss_dispatch_witness :
    (envMiss.hitTest w0.comp.pathData pt0).isEndPointHit = false ∧
    wDownMiss.comp.dispatched = w0.comp.dispatched ++
      (if false then [] else [Action.setSelections []]) :=
  ⟨rfl, onMouseDown_miss_dispatch envMiss pt0 false w0 wDownMiss rfl rfl rfl rfl⟩

/-! ## Claim C6 -/

/-- C6: hover tracking on mouse moves.  With no draggable split point
pending and no drag triggered, a miss clears the hover to `undefined` and an
end-point hit sets a `Point` hover with the disambiguated `subIdx`/`cmdIdx`;
while a draggable split point is pending, mouse moves never emit a hover
update. -/
theorem onMouseMove_hover_tracking (env : Env) (p : Point) (w w' : World)
    (hrun : onMouseMove env p w = .ok w') :
    (w.helper.currentDraggableSplitIndex = none → w.helper.isDragTriggered_ = false →
      (env.hitTest w.comp.pathData p).isHit = false →
      w'.comp.hovers = w.comp.hovers ++ [none]) ∧
    (∀ info : HitCommandInfo, w.helper.currentDraggableSplitIndex = none →
      w.helper.isDragTriggered_ = false →
      (env.hitTest w.comp.pathData p).isHit = true →
      (env.hitTest w.comp.pathData p).isEndPointHit = true →
      findHitPoint env w.comp.pathData (env.hitTest w.comp.pathData p).endPointHits = some info →
      w'.comp.hovers = w.comp.hovers ++
        [some ⟨HoverType.point, env.actionSource, info.subIdx, some info.cmdIdx⟩]) ∧
    (∀ i : Idx, w.helper.currentDraggableSplitIndex = some i →
      w'.comp.hovers = w.comp.hovers) := by
  refine ⟨?_, ?_, ?_⟩
  · intro hnone hflag hmiss
    unfold onMouseMove checkForHovers at hrun
    dsimp only at hrun
    simp [hnone, hflag, hmiss] at hrun
    subst hrun
    simp
  · intro info hnone hflag hhit hend hfind
    unfold onMouseMove checkForHovers at hrun
    dsimp only at hrun
    simp [hnone, hflag, hhit, hend, hfind] at hrun
    subst hrun
    simp
  · intro i hsome
    unfold onMouseMove at hrun
    dsimp only at hrun
    by_cases hslop : env.dragTriggerTouchSlop < env.distance w.helper.initialMouseDown p
    · simp [hsome, hslop] at hrun
      subst hrun
      simp
    · by_cases hflag : w.helper.isDragTriggered_ = true
      · simp [hsome, hslop, hflag] at hrun
        subst hrun
        simp
      · simp only [hsome, hslop, Option.isSome_some, if_true, if_false] at hrun
        simp only [hflag] at hrun
        rw [checkForHovers_some_idx env p _ (by simp)] at hrun
        simp at hrun
        subst hrun
        simp

/-- `w0` after `onMouseMove envMiss pt0`. -/
def wMoveMiss : World := (onMouseMove envMiss pt0 w0).toOption.getD w0

/-- Witness for C6: a mouse move over nothing clears the hover. -/
theorem onMouseMove_hover_tracking_witness :
    (envMiss.hitTest w0.comp.pathData pt0).isHit = false ∧
    wMoveMiss.comp.hovers = w0.comp.hovers ++ [none] :=
  ⟨rfl, (onMouseMove_hover_tracking envMiss pt0 w0 wMoveMiss rfl).1 rfl rfl rfl⟩

/-! ## Claim C4 -/

/-- The play-loop behaviour claimed by the specification, built from the
claim's words for comparison with `runPlayLoop`: while the elapsed time
`t - startTime` since the first frame is below `animationDuration`, each
frame emits `elapsed / 1000` and schedules another frame; the first frame
whose elapsed time reaches `animationDuration` emits exactly 1 and stops. -/
def expectedPlayFromSpec (startTime : Int) : List Int → List ℚ × Bool
  | [] => ([], true)
  | t :: ts =>
    if t - startTime < animationDuration then
      let rest := expectedPlayFromSpec startTime ts
      (((t - startTime : Int) : ℚ) / ((animationDuration : Int) : ℚ) :: rest.1, rest.2)
    else
      ([1], false)

/-- Counterexample to C4 as stated: when the first animation-frame timestamp
is 0, the JavaScript falsy check `if (!startTimestamp)` re-bases the start
time on the second frame, so the frame at elapsed 1500 ms emits 0 and
schedules another frame instead of emitting exactly 1 and stopping. -/
theorem runPlayLoop_zero_first_frame_cex :
    runPlayLoop none [0, 1500] ≠ expectedPlayFromSpec 0 [0, 1500] ∧
    runPlayLoop none [0, 1500] = ([0, 0], true) ∧
    expectedPlayFromSpec 0 [0, 1500] = ([0, 1], false) := by
  refine ⟨?_, ?_, ?_⟩
  · intro hcontra
    have h1 : runPlayLoop none [0, 1500] = ([0, 0], true) := by
      norm_num [runPlayLoop, onAnimationFrameStep, animationDuration]
    have h2 : expectedPlayFromSpec 0 [0, 1500] = ([0, 1], false) := by
      norm_num [expectedPlayFromSpec, animationDuration]
    rw [h1, h2] at hcontra
    simp at hcontra
  · norm_num [runPlayLoop, onAnimationFrameStep, animationDuration]
  · norm_num [expectedPlayFromSpec, animationDuration]

lemma runPlayLoop_some_eq_expected (t0 : Int) (h0 : t0 ≠ 0) :
    ∀ ts : List Int, runPlayLoop (some t0) ts = expectedPlayFromSpec t0 ts := by
  intro ts
  induction ts with
  | nil => rfl
  | cons t ts ih =>
    unfold runPlayLoop onAnimationFrameStep expectedPlayFromSpec
    dsimp only
    rw [if_neg h0]
    by_cases hc : t - t0 < animationDuration
    · simp only [hc, if_true, ih]
    · simp [hc]

lemma expectedPlayFromSpec_bounds (t0 : Int) :
    ∀ ts : List Int, (∀ t ∈ ts, t0 ≤ t) →
      ∀ q ∈ (expectedPlayFromSpec t0 ts).1, 0 ≤ q ∧ q ≤ 1 := by
  intro ts
  induction ts with
  | nil => intro _ q hq; simp [expectedPlayFromSpec] at hq
  | cons t ts ih =>
    intro hmem q hq
    unfold expectedPlayFromSpec at hq
    dsimp only at hq
    by_cases hc : t - t0 < animationDuration
    · rw [if_pos hc] at hq
      rcases List.mem_cons.mp hq with hq | hq
      · subst hq
        have hle : (0 : Int) ≤ t - t0 := by
          have := hmem t (List.mem_cons_self t ts)
          omega
        constructor
        · apply div_nonneg
          · exact_mod_cast hle
          · norm_num [animationDuration]
        · rw [div_le_one (by norm_num [animationDuration])]
          have hlt : (t - t0 : Int) ≤ animationDuration := le_of_lt hc
          exact_mod_cast hlt
      · exact ih (fun x hx => hmem x (List.mem_cons_of_mem t hx)) q hq
    · rw [if_neg hc] at hq
      simp at hq
      subst hq
      norm_num

/-- C4 (amended): for every increasing sequence of animation-frame
timestamps whose first timestamp is nonzero, the play loop emits exactly the
fractions the specification describes — `elapsed / 1000` (a value in
`[0, 1)`) with another frame scheduled while the elapsed time is below
1000 ms, and exactly 1 with no further frame once it reaches 1000 ms — and
every emitted value lies in `[0, 1]`. -/
theorem runPlayLoop_matches_spec_of_first_nonzero (t0 : Int) (ts : List Int)
    (h0 : t0 ≠ 0) (hsorted : List.Sorted (· < ·) (t0 :: ts)) :
    runPlayLoop none (t0 :: ts) = expectedPlayFromSpec t0 (t0 :: ts) ∧
    ∀ q ∈ (runPlayLoop none (t0 :: ts)).1, 0 ≤ q ∧ q ≤ 1 := by
  have hmain : runPlayLoop none (t0 :: ts) = expectedPlayFromSpec t0 (t0 :: ts) := by
    have hpos : (0 : Int) < animationDuration := by decide
    unfold runPlayLoop onAnimationFrameStep expectedPlayFromSpec
    dsimp only
    rw [sub_self, if_pos hpos, if_pos hpos]
    simp [runPlayLoop_some_eq_expected t0 h0 ts]
  refine ⟨hmain, ?_⟩
  rw [hmain]
  apply expectedPlayFromSpec_bounds
  intro t ht
  rcases List.mem_cons.mp ht with rfl | ht
  · exact le_refl t
  · exact le_of_lt ((List.sorted_cons.mp hsorted).1 t ht)

/-- Witness for the amended C4 on a concrete increasing timestamp sequence
starting at 200 ms. -/
theorem runPlayLoop_matches_spec_witness :
    (200 : Int) ≠ 0 ∧ List.Sorted (· < ·) [(200 : Int), 700, 1300] ∧
    runPlayLoop none [200, 700, 1300] = expectedPlayFromSpec 200 [200, 700, 1300] := by
  have hs : List.Sorted (· < ·) [(200 : Int), 700, 1300] := by
    simp [List.sorted_cons]
  exact ⟨by decide, hs,
    (runPlayLoop_matches_spec_of_first_nonzero 200 [700, 1300] (by decide) hs).1⟩

/-! ## Claim C7 -/

/-- C7: the slider binding normalizes linearly — every `sliderValue` is
emitted as exactly `sliderValue / 1000`, so values in `[0, 1000]` map into
`[0, 1]` — and the checkbox binding emits exactly the boolean it receives. -/
theorem timeline_slider_normalization (v : ℚ) :
    onAnimationFractionSliderChanged v = v / 1000 ∧
    (0 ≤ v → v ≤ 1000 →
      0 ≤ onAnimationFractionSliderChanged v ∧ onAnimationFractionSliderChanged v ≤ 1) ∧
    ∀ b : Bool, onLabelPointsCheckboxChanged b = b := by
  refine ⟨rfl, ?_, fun b => rfl⟩
  intro h0 h1
  unfold onAnimationFractionSliderChanged maxAnimationFractionSliderValue
  constructor
  · exact div_nonneg h0 (by norm_num)
  · rw [div_le_one (by norm_num)]
    exact h1

/-- Witness for C7 at `sliderValue = 500`. -/
theorem timeline_slider_normalization_witness :
    onAnimationFractionSliderChanged 500 = 500 / 1000 ∧
    (0 : ℚ) ≤ 500 ∧ (500 : ℚ) ≤ 1000 ∧
    0 ≤ onAnimationFractionSliderChanged 500 ∧ onAnimationFractionSliderChanged 500 ≤ 1 ∧
    onLabelPointsCheckboxChanged true = true := by
  have h := timeline_slider_normalization 500
  have h2 := h.2.1 (by norm_num) (by norm_num)
  exact ⟨h.1, by norm_num, by norm_num, h2.1, h2.2, h.2.2 true⟩

/-! ## Claim C3 -/

/-- C3: hit-test disambiguation.  For every non-empty hit list, each of
`findHitPoint`, `findHitSegment` and `findHitSubPath` returns the last hit
in the list whose resolved command (respectively sub-path) satisfies
`isSplitPoint` / `isSplitSegment` / `isSplit`, falling back to the last hit
in the list when no hit satisfies the split predicate — rendered here as the
last match of `find?` over the reversed list with the list's last element as
the default. -/
theorem findHit_disambiguation (env : Env) (pathData : PathData)
    (phits shits : List Idx) (sphits : List Nat)
    (hp : phits ≠ []) (hs : shits ≠ []) (hsp : sphits ≠ []) :
    findHitPoint env pathData phits = some (resolveCommandHit env pathData
      ((phits.reverse.find? fun i => (env.getCommand pathData i.subIdx i.cmdIdx).isSplitPoint).getD
        (phits.getLast hp))) ∧
    findHitSegment env pathData shits = some (resolveCommandHit env pathData
      ((shits.reverse.find? fun i => (env.getCommand pathData i.subIdx i.cmdIdx).isSplitSegment).getD
        (shits.getLast hs))) ∧
    findHitSubPath env pathData sphits = some (resolveSubPathHit env pathData
      ((sphits.reverse.find? fun sub => (env.getSubPath pathData sub).isSplit).getD
        (sphits.getLast hsp))) :=
  ⟨findHitPoint_eq_last_split env pathData phits hp,
   findHitSegment_eq_last_split env pathData shits hs,
   findHitSubPath_eq_last_split env pathData sphits hsp⟩

/-- An environment for exercising the hit disambiguation: a command is a
split point exactly when its `cmdIdx` is 1, a split segment exactly when its
`cmdIdx` is 2, and a sub-path is split exactly when its `subIdx` is 3. -/
def envC3 : Env :=
  ⟨ActionSource.animatedSource, 1, true, false,
   fun _ _ => 10, fun p => p, fun _ _ => missHitResult,
   fun _ _ c => ⟨c == 1, c == 2⟩,
   fun _ sub => ⟨sub == 3⟩,
   fun _ _ _ => none⟩

/-- Witness for C3 on concrete two-element hit lists where the split hit is
the earlier element. -/
theorem findHit_disambiguation_witness :
    ([⟨0, 1⟩, ⟨0, 5⟩] : List Idx) ≠ [] ∧
    findHitPoint envC3 (PathData.base 7) [⟨0, 1⟩, ⟨0, 5⟩] = some ⟨0, 1, ⟨true, false⟩⟩ ∧
    findHitSegment envC3 (PathData.base 7) [⟨0, 2⟩, ⟨0, 3⟩] = some ⟨0, 2, ⟨false, true⟩⟩ ∧
    findHitSubPath envC3 (PathData.base 7) [3, 4] = some ⟨3, ⟨true⟩⟩ := by
  have h := findHit_disambiguation envC3 (PathData.base 7) [⟨0, 1⟩, ⟨0, 5⟩] [⟨0, 2⟩, ⟨0, 3⟩]
    [3, 4] (by decide) (by decide) (by decide)
  refine ⟨by decide, ?_, ?_, ?_⟩
  · rw [h.1]; rfl
  · rw [h.2.1]; rfl
  · rw [h.2.2]; rfl

/-! ## Claim C8 -/

/-- `w` with its three effect logs emptied.  Handlers never read the logs,
so running from `clearLogs w` must produce the same behaviour. -/
def clearLogs (w : World) : World := ⟨w.helper, ⟨w.comp.pathData, [], [], 0⟩⟩

/-- Prepend `w`'s effect logs to `u`'s. -/
def addLogs (w u : World) : World :=
  ⟨u.helper, ⟨u.comp.pathData, w.comp.hovers ++ u.comp.hovers,
    w.comp.dispatched ++ u.comp.dispatched, w.comp.draws + u.comp.draws⟩⟩

/-- The hover update `checkForHovers` emits, as a function of only the
pending split index and the path: `.error` for a crash, `.ok none` for no
`setHover` call, `.ok (some h)` for `setHover h`. -/
def hoverEffect (env : Env) (p : Point) (idx : Option Idx) (pathData : PathData) :
    Except JsError (Option (Option Hover)) :=
  if idx.isSome then .ok none
  else
    let hitResult := env.hitTest pathData p
    if !hitResult.isHit then .ok (some none)
    else if hitResult.isEndPointHit then
      match findHitPoint env pathData hitResult.endPointHits with
      | none => .error .undefinedHitInfo
      | some info =>
        .ok (some (some ⟨HoverType.point, env.actionSource, info.subIdx, some info.cmdIdx⟩))
    else
      let shapeHitStep : Except JsError (Option (Option Hover)) :=
        if hitResult.isShapeHit && env.isFilled then
          match findHitSubPath env pathData hitResult.shapeHits with
          | none => .error .undefinedHitInfo
          | some info => .ok (some (some ⟨HoverType.subPath, env.actionSource, info.subIdx, none⟩))
        else .ok none
      if hitResult.isSegmentHit then
        if env.isFilled then
          match findHitSegment env pathData hitResult.segmentHits with
          | none => .error .undefinedHitInfo
          | some info =>
            if (env.getCommand pathData info.subIdx info.cmdIdx).isSplitSegment then
              .ok (some (some ⟨HoverType.segment, env.actionSource, info.subIdx, some info.cmdIdx⟩))
            else shapeHitStep
        else if env.isStroked then
          match findHitSegment env pathData hitResult.segmentHits with
          | none => .error .undefinedHitInfo
          | some info => .ok (some (some ⟨HoverType.subPath, env.actionSource, info.subIdx, none⟩))
        else shapeHitStep
      else shapeHitStep

lemma checkForHovers_eq_hoverEffect (env : Env) (p : Point) (w : World) :
    checkForHovers env p w =
      match hoverEffect env p w.helper.currentDraggableSplitIndex w.comp.pathData with
      | .error e => .error e
      | .ok none => .ok w
      | .ok (some h) => .ok (setHover h w) := by
  unfold checkForHovers hoverEffect
  dsimp only
  repeat' split
  all_goals first
    | rfl
    | simp_all

lemma onMouseDown_frame (env : Env) (p : Point) (s : Bool) (w : World) :
    onMouseDown env p s w = (onMouseDown env p s (clearLogs w)).map (addLogs w) := by
  unfold onMouseDown clearLogs
  dsimp only
  repeat' split
  all_goals simp [Except.map, dispatch, addLogs]

lemma onMouseUpCore_frame (env : Env) (p : Point) (s : Bool) (w : World) :
    onMouseUpCore env p s w = (onMouseUpCore env p s (clearLogs w)).map (addLogs w) := by
  unfold onMouseUpCore clearLogs
  dsimp only
  repeat' split
  all_goals simp [Except.map, commitDragChanges, dispatch, setHover, reset, addLogs]

lemma onMouseMove_frame (env : Env) (p : Point) (w : World) :
    onMouseMove env p w = (onMouseMove env p (clearLogs w)).map (addLogs w) := by
  unfold onMouseMove clearLogs
  dsimp only
  by_cases hidx : w.helper.currentDraggableSplitIndex.isSome = true
  · by_cases hslop : env.dragTriggerTouchSlop < env.distance w.helper.initialMouseDown p
    · simp only [hidx, hslop, if_true]
      repeat' split
      all_goals (subst_vars; simp_all [Except.map, draw, addLogs])
    · simp only [hidx, hslop, if_true, if_false]
      by_cases hflag : w.helper.isDragTriggered_ = true
      · simp only [hflag, eq_self_iff_true, if_true]
        repeat' split
        all_goals (subst_vars; simp_all [Except.map, draw, addLogs])
      · simp only [hflag, Bool.not_eq_true] at hflag ⊢
        simp only [hflag, Bool.false_eq_true, if_false]
        rw [checkForHovers_eq_hoverEffect, checkForHovers_eq_hoverEffect]
        try dsimp only
        cases hEff : hoverEffect env p w.helper.currentDraggableSplitIndex w.comp.pathData with
        | error e =>
          try rw [hEff]
          simp_all [Except.map, draw, setHover, addLogs]
        | ok o =>
          cases o with
          | none =>
            try rw [hEff]
            simp_all [Except.map, draw, setHover, addLogs]
          | some hv =>
            try rw [hEff]
            simp_all [Except.map, draw, setHover, addLogs]
  · simp only [Bool.not_eq_true] at hidx
    simp only [hidx, Bool.false_eq_true, if_false]
    by_cases hflag : w.helper.isDragTriggered_ = true
    · simp only [hflag, eq_self_iff_true, if_true]
      repeat' split
      all_goals (subst_vars; simp_all [Except.map, draw, addLogs])
    · simp only [Bool.not_eq_true] at hflag
      simp only [hflag, Bool.false_eq_true, if_false]
      rw [checkForHovers_eq_hoverEffect, checkForHovers_eq_hoverEffect]
      try dsimp only
      cases hEff : hoverEffect env p w.helper.currentDraggableSplitIndex w.comp.pathData with
      | error e =>
        try rw [hEff]
        simp_all [Except.map, draw, setHover, addLogs]
      | ok o =>
        cases o with
        | none =>
          try rw [hEff]
          simp_all [Except.map, draw, setHover, addLogs]
        | some hv =>
          try rw [hEff]
          simp_all [Except.map, draw, setHover, addLogs]

@[simp] lemma addLogs_helper (w u : World) : (addLogs w u).helper = u.helper := rfl

@[simp] lemma addLogs_pathData (w u : World) :
    (addLogs w u).comp.pathData = u.comp.pathData := rfl

lemma reset_addLogs (w u : World) : reset (addLogs w u) = addLogs w (reset u) := rfl

lemma draw_addLogs (w u : World) : draw (addLogs w u) = addLogs w (draw u) := by
  simp [draw, addLogs, Nat.add_assoc]

lemma setHover_addLogs (h : Option Hover) (w u : World) :
    setHover h (addLogs w u) = addLogs w (setHover h u) := by
  simp [setHover, addLogs, List.append_assoc]

lemma onMouseUp_frame (env : Env) (p : Point) (s : Bool) (w : World) :
    onMouseUp env p s w = (onMouseUp env p s (clearLogs w)).map (addLogs w) := by
  unfold onMouseUp
  rw [onMouseUpCore_frame env p s w]
  cases hc : onMouseUpCore env p s (clearLogs w) with
  | error e => simp [Except.map]
  | ok u =>
    dsimp only [Except.map]
    rw [reset_addLogs]
    rw [checkForHovers_eq_hoverEffect, checkForHovers_eq_hoverEffect]
    simp only [addLogs_helper, addLogs_pathData, reset_helper, reset_comp]
    cases hEff : hoverEffect env p initialHelper.currentDraggableSplitIndex u.comp.pathData with
    | error e =>
      try rw [hEff]
      simp_all
    | ok o =>
      cases o with
      | none =>
        try rw [hEff]
        simp_all [draw_addLogs]
      | some hv =>
        try rw [hEff]
        simp_all [draw_addLogs, setHover_addLogs]

lemma onMouseLeave_frame (p : Point) (w : World) :
    onMouseLeave p w = addLogs w (onMouseLeave p (clearLogs w)) := by
  simp [onMouseLeave, reset, setHover, draw, addLogs, clearLogs]

/-- Agreement of two handler runs: both crash with the same error, or both
return normally with equal final helper state, equal path data, and the same
appended sequence of dispatched actions and of hover updates. -/
def EmitAgree (w1 w2 : World) : Except JsError World → Except JsError World → Prop
  | .error e1, .error e2 => e1 = e2
  | .ok u1, .ok u2 =>
      u1.helper = u2.helper ∧ u1.comp.pathData = u2.comp.pathData ∧
      (∃ ds : List Action, u1.comp.dispatched = w1.comp.dispatched ++ ds ∧
        u2.comp.dispatched = w2.comp.dispatched ++ ds) ∧
      (∃ hs : List (Option Hover), u1.comp.hovers = w1.comp.hovers ++ hs ∧
        u2.comp.hovers = w2.comp.hovers ++ hs)
  | _, _ => False

lemma emitAgree_addLogs (w1 w2 u : World) :
    EmitAgree w1 w2 (.ok (addLogs w1 u)) (.ok (addLogs w2 u)) :=
  ⟨rfl, rfl, ⟨u.comp.dispatched, rfl, rfl⟩, ⟨u.comp.hovers, rfl, rfl⟩⟩

lemma emitAgree_map (w1 w2 : World) (r : Except JsError World) :
    EmitAgree w1 w2 (r.map (addLogs w1)) (r.map (addLogs w2)) := by
  cases r with
  | error e => exact rfl
  | ok u => exact emitAgree_addLogs w1 w2 u

/-- C8: the mouse-event handlers are deterministic functions of the helper
state, the mouse point, the modifier flag and the component's query results:
two runs of the same handler from worlds with identical helper state and
path data (the only component state the handlers read) produce the same
sequence of store dispatches, the same sequence of hover updates, the same
final helper state and the same path data — or fail identically. -/
theorem handlers_log_independent (env : Env) (p : Point) (s : Bool) (w1 w2 : World)
    (hh : w1.helper = w2.helper) (hpd : w1.comp.pathData = w2.comp.pathData) :
    EmitAgree w1 w2 (onMouseDown env p s w1) (onMouseDown env p s w2) ∧
    EmitAgree w1 w2 (onMouseMove env p w1) (onMouseMove env p w2) ∧
    EmitAgree w1 w2 (onMouseUp env p s w1) (onMouseUp env p s w2) ∧
    EmitAgree w1 w2 (.ok (onMouseLeave p w1)) (.ok (onMouseLeave p w2)) := by
  have hcl : clearLogs w1 = clearLogs w2 := by
    unfold clearLogs
    rw [hh, hpd]
  refine ⟨?_, ?_, ?_, ?_⟩
  · rw [onMouseDown_frame env p s w1, onMouseDown_frame env p s w2, hcl]
    exact emitAgree_map w1 w2 _
  · rw [onMouseMove_frame env p w1, onMouseMove_frame env p w2, hcl]
    exact emitAgree_map w1 w2 _
  · rw [onMouseUp_frame env p s w1, onMouseUp_frame env p s w2, hcl]
    exact emitAgree_map w1 w2 _
  · rw [onMouseLeave_frame p w1, onMouseLeave_frame p w2, hcl]
    exact emitAgree_addLogs w1 w2 _

/-- A world agreeing with `w0` on helper state and path data but carrying a
different effect history. -/
def wLogs : World := ⟨initialHelper, ⟨PathData.base 7, [none], [Action.setSelections []], 5⟩⟩

/-- Witness for C8 at two concrete worlds differing only in their logs. -/
theorem handlers_log_independent_witness :
    EmitAgree w0 wLogs (onMouseDown envMiss pt0 false w0) (onMouseDown envMiss pt0 false wLogs) ∧
    EmitAgree w0 wLogs (.ok (onMouseLeave pt0 w0)) (.ok (onMouseLeave pt0 wLogs)) := by
  have h := handlers_log_independent envMiss pt0 false w0 wLogs rfl rfl
  exact ⟨h.1, h.2.2.2⟩

end ShapeShifter
